import Mathlib

/-!
Shallow embedding of `bot.py` (Socialfi Adda Telegram bot): the SQLite-backed
session store, the link / engagement message handler, the admin check and the
X-handle extraction utilities, together with proofs about the specified
behaviour.

The SQLite database is modelled as lists of rows in insertion order; the
AUTOINCREMENT id counter of the `sessions` table is modelled explicitly.
SQL `SELECT DISTINCT ... ORDER BY` is modelled as dedup followed by an
insertion sort on strings (SQLite BINARY collation on UTF-8 text agrees with
codepoint-lexicographic string order).
-/

/-- Character class of the regex fragment `[a-zA-Z0-9_]` (ASCII word chars). -/
def isWordChar (c : Char) : Bool := c.isAlpha || c.isDigit || c == '_'

/-- Model of Python `str.strip()`: drop whitespace from both ends. -/
def pyStrip (s : String) : String :=
  String.mk (((s.data.dropWhile Char.isWhitespace).reverse.dropWhile Char.isWhitespace).reverse)

/-- Model of Python `str.lower()` on ASCII text. -/
def pyLower (s : String) : String := String.mk (s.data.map Char.toLower)

/-- Model of Python `a or b` for an optional/possibly-empty string `a`
(`None` and the empty string are falsy). -/
def strOr (a : Option String) (b : String) : String :=
  match a with
  | none => b
  | some s => if s = "" then b else s

/-- Codepoint-lexicographic comparison of character lists (SQLite BINARY
collation on UTF-8 text and Python string comparison agree with this). -/
def strLeb : List Char → List Char → Bool
  | [], _ => true
  | _ :: _, [] => false
  | a :: as, b :: bs => if a < b then true else if b < a then false else strLeb as bs

/-- String comparison used to model `ORDER BY` / `sorted`. -/
def strLe (a b : String) : Bool := strLeb a.data b.data

/-- Insertion step of the string sort used to model `ORDER BY` / `sorted`. -/
def insertSorted (x : String) : List String → List String
  | [] => [x]
  | y :: ys => if strLe x y then x :: y :: ys else y :: insertSorted x ys

/-- Insertion sort on strings, modelling SQL `ORDER BY` and Python `sorted`. -/
def sortStr (l : List String) : List String := l.foldr insertSorted []

/-- Duplicate removal on strings, modelling SQL `DISTINCT` and Python `set`
(always combined with `sortStr`, so which occurrence survives is immaterial). -/
def dedupStr : List String → List String
  | [] => []
  | a :: as =>
    let d := dedupStr as
    if d.contains a then d else a :: d

/-! ## Link Extractor (`extract_x_handle`) and link recognition

`extract_x_handle` embeds the Python regex search for
`(?:https?://)?(?:www\.)?(?:x\.com|twitter\.com)/([a-zA-Z0-9_]+)`:
the captured group is the maximal word-character run right after the first
occurrence of `x.com/` or `twitter.com/` that is followed by at least one
word character (the optional scheme / `www.` prefixes never change which
occurrence matches first, nor the captured group).

`x_link_qualifies` embeds the case-insensitive boolean search in
`handle_text_message` for `(?:https?://)?(?:www\.)?(?:x\.com|twitter\.com)/[^\s]+`:
some occurrence of `x.com/` or `twitter.com/` (after lowercasing) followed by
at least one non-whitespace character. -/

/-- If `pre` is a prefix of `s`, the nonempty word-character run right after
it, else `none`. -/
def handleAfter (pre : List Char) (s : List Char) : Option (List Char) :=
  if pre.isPrefixOf s then
    let h := (s.drop pre.length).takeWhile isWordChar
    if h.isEmpty then none else some h
  else none

/-- Scan for the first match of the handle-capturing regex. -/
def extractAux : List Char → Option String
  | [] => none
  | c :: rest =>
    match handleAfter ("x.com/".data) (c :: rest) with
    | some h => some (String.mk h)
    | none =>
      match handleAfter ("twitter.com/".data) (c :: rest) with
      | some h => some (String.mk h)
      | none => extractAux rest

/-- Embedding of `extract_x_handle` (bot.py lines 294-308). -/
def extract_x_handle (link : String) : Option String :=
  extractAux link.data

/-- `pre` is a prefix of `s` and the next character after it is not whitespace. -/
def hasNonSpaceAfter (pre : List Char) (s : List Char) : Bool :=
  pre.isPrefixOf s &&
    match s.drop pre.length with
    | [] => false
    | d :: _ => !d.isWhitespace

/-- Scan for a match of the link-recognition regex (on lowercased text). -/
def qualAux : List Char → Bool
  | [] => false
  | c :: rest =>
    hasNonSpaceAfter ("x.com/".data) (c :: rest) ||
    hasNonSpaceAfter ("twitter.com/".data) (c :: rest) ||
    qualAux rest

/-- Embedding of the `x_pattern` check in `handle_text_message`
(bot.py lines 676-677, `re.IGNORECASE`). -/
def x_link_qualifies (text : String) : Bool :=
  qualAux (text.data.map Char.toLower)

/-! ## Admin Authority -/

/-- Embedding of `is_admin` (bot.py lines 310-312): membership of the user id
in the statically configured `ADMIN_IDS` set, here passed explicitly. -/
def is_admin (adminIds : List Nat) (user_id : Nat) : Bool :=
  adminIds.contains user_id

/-- Membership status returned by the messaging gateway lookup. -/
inductive MemberStatus where
  | owner
  | administrator
  | member
  | restricted
  | left
  | kicked
deriving DecidableEq, Repr

/-- The spec's description of the admin check (for comparison with the code's
`is_admin`): calls the gateway membership-status lookup for the chat and
returns true iff the status is owner or administrator; any gateway error
yields false. -/
def isAdministrator_specVersion (status : Nat → Nat → Except Unit MemberStatus)
    (chatId userId : Nat) : Bool :=
  match status chatId userId with
  | Except.ok MemberStatus.owner => true
  | Except.ok MemberStatus.administrator => true
  | _ => false

/-! ## Database model -/

/-- A row of the `sessions` table. -/
structure SessionRow where
  id : Nat
  active : Bool
  created_by : Nat
deriving DecidableEq, Repr

/-- A row of the `links` table (`handle` is a nullable column). -/
structure LinkRow where
  session_id : Nat
  telegram_id : Nat
  username : String
  link : String
  handle : Option String
deriving DecidableEq, Repr

/-- A row of the `engagement` table (`UNIQUE(session_id, telegram_id)`). -/
structure EngagementRow where
  session_id : Nat
  telegram_id : Nat
  username : String
deriving DecidableEq, Repr

/-- The database state: rows in insertion order plus the AUTOINCREMENT
counter for session ids. -/
structure DB where
  sessions : List SessionRow
  links : List LinkRow
  engagement : List EngagementRow
  nextSessionId : Nat
deriving DecidableEq, Repr

/-- The freshly initialised database (`init_database`): empty tables. -/
def DB.init : DB := ⟨[], [], [], 1⟩

/-- Embedding of `get_active_session` (bot.py lines 147-159):
`SELECT id FROM sessions WHERE active = 1 ORDER BY id DESC LIMIT 1`. -/
def get_active_session (db : DB) : Option Nat :=
  ((db.sessions.filter (fun s => s.active)).map (fun s => s.id)).max?

/-- Embedding of `create_new_session` (bot.py lines 161-183):
`UPDATE sessions SET active = 0`, then insert a new active session; returns
the updated database and the new session id (`lastrowid`). -/
def create_new_session (db : DB) (admin_id : Nat) : DB × Nat :=
  let deactivated := db.sessions.map (fun s => { s with active := false })
  let sid := db.nextSessionId
  ({ db with
      sessions := deactivated ++ [⟨sid, true, admin_id⟩],
      nextSessionId := sid + 1 },
   sid)

/-- Embedding of `get_user_link_count` (bot.py lines 185-198):
`SELECT COUNT(*) FROM links WHERE session_id = ? AND telegram_id = ?`. -/
def get_user_link_count (db : DB) (session_id telegram_id : Nat) : Nat :=
  (db.links.filter
    (fun r => r.session_id == session_id && r.telegram_id == telegram_id)).length

/-- Embedding of `save_link` (bot.py lines 200-213): insert a row, with
`username or "Unknown"` coalescing. -/
def save_link (db : DB) (session_id telegram_id : Nat)
    (username link : String) (handle : Option String) : DB :=
  { db with
      links := db.links ++
        [⟨session_id, telegram_id,
          if username = "" then "Unknown" else username, link, handle⟩] }

/-- Embedding of `get_session_participants` (bot.py lines 215-228):
`SELECT DISTINCT username FROM links WHERE session_id = ? ORDER BY username`,
each row rendered as `@name`, or `"Unknown"` when the username is falsy. -/
def get_session_participants (db : DB) (session_id : Nat) : List String :=
  (sortStr (dedupStr ((db.links.filter (fun r => r.session_id == session_id)).map
      (fun r => r.username)))).map
    (fun u => if u = "" then "Unknown" else "@" ++ u)

/-- Embedding of `get_session_handles` (bot.py lines 230-243):
`SELECT DISTINCT handle FROM links WHERE session_id = ? AND handle IS NOT NULL
ORDER BY handle`, keeping only truthy handles, each rendered as `@handle`. -/
def get_session_handles (db : DB) (session_id : Nat) : List String :=
  ((sortStr (dedupStr ((db.links.filter (fun r => r.session_id == session_id)).filterMap
      (fun r => r.handle)))).filter (fun h => h ≠ "")).map
    (fun h => "@" ++ h)

/-- Embedding of `save_engagement` (bot.py lines 245-258):
`INSERT OR IGNORE` against the `UNIQUE(session_id, telegram_id)` constraint. -/
def save_engagement (db : DB) (session_id telegram_id : Nat)
    (username : String) : DB :=
  if db.engagement.any
      (fun r => r.session_id == session_id && r.telegram_id == telegram_id) then
    db
  else
    { db with
        engagement := db.engagement ++
          [⟨session_id, telegram_id,
            if username = "" then "Unknown" else username⟩] }

/-- Embedding of `get_user_links` (bot.py lines 260-273):
`SELECT link FROM links WHERE session_id = ? AND telegram_id = ?`. -/
def get_user_links (db : DB) (session_id telegram_id : Nat) : List String :=
  (db.links.filter
    (fun r => r.session_id == session_id && r.telegram_id == telegram_id)).map
    (fun r => r.link)

/-- Embedding of `get_engagement_list` (bot.py lines 275-288):
`SELECT DISTINCT username FROM engagement WHERE session_id = ? ORDER BY
username`, rendered like the participants list. -/
def get_engagement_list (db : DB) (session_id : Nat) : List String :=
  (sortStr (dedupStr ((db.engagement.filter (fun r => r.session_id == session_id)).map
      (fun r => r.username)))).map
    (fun u => if u = "" then "Unknown" else "@" ++ u)

/-! ## Handlers -/

/-- An outbound effect of a handler: a reply sent to the chat, or a deletion
of the inbound message. -/
inductive BotAction where
  | reply (text : String)
  | deleteMsg
deriving DecidableEq, Repr

/-- The fields of an inbound message the handlers read. -/
structure Msg where
  chat_type : String
  user_id : Nat
  username : Option String
  first_name : String
  text : String
deriving DecidableEq, Repr

/-- The engagement confirmation keywords of `handle_text_message`. -/
def engKeywords : List String := ["ad", "done", "all done", "completed"]

/-- Embedding of `handle_text_message` (bot.py lines 637-700): classify an
inbound group message as engagement confirmation, link submission, or
neither, mutating the database and emitting the replies the code sends. -/
def handle_text_message (db : DB) (m : Msg) : DB × List BotAction :=
  if !(m.chat_type == "group" || m.chat_type == "supergroup") then (db, [])
  else
    match get_active_session db with
    | none => (db, [])
    | some session_id =>
      let user_id := m.user_id
      let username := strOr m.username m.first_name
      let text := pyStrip m.text
      if engKeywords.contains (pyLower text) then
        let user_links := get_user_links db session_id user_id
        if user_links.isEmpty then
          (db, [BotAction.reply "⚠️ You haven\x27t submitted any links in this session."])
        else
          let db2 := save_engagement db session_id user_id username
          (db2, [BotAction.reply ("ENGAGEMENT RECORDED 👍\n\nYour links:\n" ++
            String.intercalate "\n" user_links)])
      else if x_link_qualifies text then
        let current_count := get_user_link_count db session_id user_id
        if current_count ≥ 2 then
          (db, [BotAction.reply "❌ You\x27ve already submitted 2 links. Maximum reached."])
        else
          let handle := extract_x_handle text
          let db2 := save_link db session_id user_id username text handle
          let remaining := 2 - (current_count + 1)
          if remaining > 0 then
            (db2, [BotAction.reply ("✅ Link saved! You can submit " ++
              toString remaining ++ " more link(s).")])
          else
            (db2, [BotAction.reply "✅ Link saved! You\x27ve reached your limit (2/2)."])
      else (db, [])

/-- Embedding of `cmd_send` (bot.py lines 367-387): non-admins are silently
ignored; otherwise a new session is created and a fixed announcement sent. -/
def cmd_send (db : DB) (adminIds : List Nat) (user_id : Nat) : DB × List BotAction :=
  if !is_admin adminIds user_id then (db, [])
  else
    let res := create_new_session db user_id
    (res.1, [BotAction.reply "START SENDING LINK 🔗"])

/-- The roster computed by `cmd_notad` (bot.py lines 498-527):
`sorted(set(participants) - set(completed))`. -/
def cmd_notad_roster (db : DB) (session_id : Nat) : List String :=
  sortStr ((dedupStr (get_session_participants db session_id)).filter
    (fun u => !(get_engagement_list db session_id).contains u))

/-! ## Helper lemmas about the sorting / dedup models -/

theorem insertSorted_perm (x : String) (l : List String) :
    List.Perm (insertSorted x l) (x :: l) := by
  induction l with
  | nil => exact List.Perm.refl _
  | cons y ys ih =>
    simp only [insertSorted]
    split
    · exact List.Perm.refl _
    · exact (List.Perm.cons y ih).trans (List.Perm.swap x y ys)

theorem sortStr_perm (l : List String) : List.Perm (sortStr l) l := by
  induction l with
  | nil => exact List.Perm.refl _
  | cons a as ih =>
    exact (insertSorted_perm a (sortStr as)).trans (List.Perm.cons a ih)

theorem mem_sortStr {a : String} {l : List String} : a ∈ sortStr l ↔ a ∈ l :=
  (sortStr_perm l).mem_iff

theorem nodup_sortStr {l : List String} (h : l.Nodup) : (sortStr l).Nodup :=
  ((sortStr_perm l).nodup_iff).mpr h

theorem mem_dedupStr {a : String} : ∀ {l : List String}, a ∈ dedupStr l ↔ a ∈ l := by
  intro l
  induction l with
  | nil => simp [dedupStr]
  | cons b bs ih =>
    simp only [dedupStr]
    split
    case isTrue h =>
      rw [ih, List.mem_cons]
      constructor
      · exact Or.inr
      · rintro (rfl | hm)
        · exact ih.mp (by simpa using h)
        · exact hm
    case isFalse h =>
      rw [List.mem_cons, List.mem_cons, ih]

theorem nodup_dedupStr : ∀ (l : List String), (dedupStr l).Nodup
  | [] => List.nodup_nil
  | b :: bs => by
    simp only [dedupStr]
    split
    case isTrue h => exact nodup_dedupStr bs
    case isFalse h =>
      refine List.nodup_cons.mpr ⟨?_, nodup_dedupStr bs⟩
      intro hmem
      exact absurd (by simpa using hmem) (by simpa using h)

theorem takeWhile_of_all {p : Char → Bool} {l : List Char}
    (h : ∀ c ∈ l, p c = true) : l.takeWhile p = l := by
  induction l with
  | nil => rfl
  | cons c cs ih =>
    rw [List.takeWhile_cons, h c (List.mem_cons_self c cs)]
    simp [ih (fun d hd => h d (List.mem_cons_of_mem c hd))]

theorem takeWhile_append_of_stop {p : Char → Bool} {l₁ : List Char} {d : Char}
    {l₂ : List Char} (h₁ : ∀ c ∈ l₁, p c = true) (hd : p d = false) :
    (l₁ ++ d :: l₂).takeWhile p = l₁ := by
  induction l₁ with
  | nil => simp [List.takeWhile_cons, hd]
  | cons c cs ih =>
    rw [List.cons_append, List.takeWhile_cons, h₁ c (List.mem_cons_self c cs)]
    simp [ih (fun e he => h₁ e (List.mem_cons_of_mem c he))]

theorem filter_deactivated (l : List SessionRow) :
    (l.map (fun s => { s with active := false })).filter (fun s => s.active) = [] := by
  induction l with
  | nil => rfl
  | cons s ss ih => simp [List.filter_cons, ih]

/-! ## Helper lemmas about the store operations -/

theorem save_engagement_any (db : DB) (sid tid : Nat) (u : String) :
    (save_engagement db sid tid u).engagement.any
      (fun r => r.session_id == sid && r.telegram_id == tid) = true := by
  simp only [save_engagement]
  split
  case isTrue h => exact h
  case isFalse h => simp [List.any_append]

theorem save_engagement_of_any (db : DB) (sid tid : Nat) (u : String)
    (h : db.engagement.any
      (fun r => r.session_id == sid && r.telegram_id == tid) = true) :
    save_engagement db sid tid u = db := by
  simp [save_engagement, h]

theorem save_engagement_sessions (db : DB) (sid tid : Nat) (u : String) :
    (save_engagement db sid tid u).sessions = db.sessions := by
  simp only [save_engagement]
  split <;> rfl

theorem save_link_sessions (db : DB) (sid tid : Nat) (u l : String)
    (h : Option String) : (save_link db sid tid u l h).sessions = db.sessions := rfl

theorem get_user_link_count_save (db : DB) (sid tid : Nat) (u l : String)
    (h : Option String) :
    get_user_link_count (save_link db sid tid u l h) sid tid =
      get_user_link_count db sid tid + 1 := by
  simp [get_user_link_count, save_link, List.filter_append, List.filter_cons]

theorem strneFmt_inj {x y : String} (hx : x ≠ "") (hy : y ≠ "")
    (h : (if x = "" then "Unknown" else "@" ++ x) =
         (if y = "" then "Unknown" else "@" ++ y)) : x = y := by
  rw [if_neg hx, if_neg hy] at h
  have hd := congrArg String.data h
  simp only [String.data_append] at hd
  exact String.ext (List.append_cancel_left hd)

theorem nodup_engagement_list (db : DB) (sid : Nat)
    (hclean : ∀ r ∈ db.engagement, r.username ≠ "") :
    (get_engagement_list db sid).Nodup := by
  unfold get_engagement_list
  apply List.Nodup.map_on
  · intro x hx y hy hxy
    have hx2 : x ∈ (db.engagement.filter (fun r => r.session_id == sid)).map
        (fun r => r.username) := mem_dedupStr.mp (mem_sortStr.mp hx)
    have hy2 : y ∈ (db.engagement.filter (fun r => r.session_id == sid)).map
        (fun r => r.username) := mem_dedupStr.mp (mem_sortStr.mp hy)
    obtain ⟨rx, hrx, rfl⟩ := List.mem_map.mp hx2
    obtain ⟨ry, hry, rfl⟩ := List.mem_map.mp hy2
    exact strneFmt_inj (hclean rx (List.mem_filter.mp hrx).1)
      (hclean ry (List.mem_filter.mp hry).1) hxy
  · exact nodup_sortStr (nodup_dedupStr _)

theorem handle_mem_of_row (db : DB) (sid : Nat) (r : LinkRow) (hr : r ∈ db.links)
    (hsid : r.session_id = sid) (h : String) (hh : r.handle = some h)
    (hne : h ≠ "") : ("@" ++ h) ∈ get_session_handles db sid := by
  unfold get_session_handles
  apply List.mem_map_of_mem
  refine List.mem_filter.mpr ⟨?_, by simp [hne]⟩
  refine mem_sortStr.mpr (mem_dedupStr.mpr ?_)
  exact List.mem_filterMap.mpr ⟨r, List.mem_filter.mpr ⟨hr, by simp [hsid]⟩, hh⟩

/-! ## Concrete example states -/

def exAdmins : List Nat := [99]

def dbRound : DB := (cmd_send DB.init exAdmins 99).1

def msgLinkA : Msg := ⟨"group", 7, some "bob", "Bob", "x.com/aaa/status/1"⟩

def msgLinkB : Msg := ⟨"group", 7, some "bob", "Bob", "x.com/bbb/status/2"⟩

def msgLinkC : Msg := ⟨"group", 7, some "bob", "Bob", "x.com/ccc/status/3"⟩

def dbOne : DB := (handle_text_message dbRound msgLinkA).1

def dbTwo : DB := (handle_text_message dbOne msgLinkB).1

def dbClosed : DB :=
  { sessions := [⟨1, false, 99⟩], links := [], engagement := [], nextSessionId := 2 }

def dbEmptyOpen : DB :=
  { sessions := [⟨1, true, 99⟩], links := [], engagement := [], nextSessionId := 2 }

def dbThreePrior : DB :=
  { sessions := [⟨1, true, 99⟩],
    links := [⟨1, 7, "a", "x.com/a/status/1", some "a"⟩,
              ⟨1, 8, "b", "x.com/b/status/1", some "b"⟩,
              ⟨1, 9, "c", "x.com/c/status/1", some "c"⟩],
    engagement := [],
    nextSessionId := 2 }

/-- Database states reachable from the initialised database by the mutating
store operations (`create_new_session`, `save_link`, `save_engagement`). -/
inductive Reachable : DB → Prop where
  | init : Reachable DB.init
  | send {db : DB} (a : Nat) : Reachable db → Reachable (create_new_session db a).1
  | link {db : DB} (sid tid : Nat) (u l : String) (h : Option String) :
      Reachable db → Reachable (save_link db sid tid u l h)
  | engage {db : DB} (sid tid : Nat) (u : String) :
      Reachable db → Reachable (save_engagement db sid tid u)

/-! ## Claims -/

/-- Claim C7 (confirmed): the `/notad` roster is exactly the set difference of
the participants roster and the completed roster — `u` is listed as
not-completed iff `u` is a participant and `u` is not in the completed list.
In particular a participant who never submitted (not in the participants
list) never appears in the not-completed list. -/
theorem C7_notad_is_set_difference (db : DB) (sid : Nat) (u : String) :
    u ∈ cmd_notad_roster db sid ↔
      (u ∈ get_session_participants db sid ∧ u ∉ get_engagement_list db sid) := by
  unfold cmd_notad_roster
  rw [mem_sortStr, List.mem_filter, mem_dedupStr]
  simp

/-- Claim C9 (confirmed): engagement confirmation is idempotent. A second
`save_engagement` for the same session and participant leaves the database
unchanged (`INSERT OR IGNORE` against `UNIQUE(session_id, telegram_id)`), and
the completed list never shows a participant twice (it is duplicate-free),
provided no stored engagement username is the empty string (the code never
stores one: it coalesces falsy usernames to `"Unknown"`). -/
theorem C9_engagement_idempotent (db : DB) (sid tid : Nat) (u u2 : String)
    (hclean : ∀ r ∈ db.engagement, r.username ≠ "") :
    save_engagement (save_engagement db sid tid u) sid tid u2 =
      save_engagement db sid tid u ∧
    (get_engagement_list (save_engagement db sid tid u) sid).Nodup := by
  constructor
  · exact save_engagement_of_any _ _ _ _ (save_engagement_any db sid tid u)
  · apply nodup_engagement_list
    intro r hr
    simp only [save_engagement] at hr
    split at hr
    · exact hclean r hr
    · rw [List.mem_append] at hr
      rcases hr with h1 | h1
      · exact hclean r h1
      · simp only [List.mem_singleton] at h1
        subst h1
        split <;> simp_all

/-- Witness for C9 at a concrete state: user 7 confirms twice in session 1 of
`dbTwo`; the second confirmation changes nothing and the completed list is
duplicate-free. -/
theorem C9_engagement_idempotent_witness :
    save_engagement (save_engagement dbTwo 1 7 "bob") 1 7 "bob" =
      save_engagement dbTwo 1 7 "bob" ∧
    (get_engagement_list (save_engagement dbTwo 1 7 "bob") 1).Nodup :=
  C9_engagement_idempotent dbTwo 1 7 "bob" "bob" (by decide)

/-- Claim C10 (confirmed): every reachable database state has at most one
session row with `active = 1` (`create_new_session` deactivates all rows
before inserting the new active one, inside one critical section), so the
active-session lookup is unambiguous: for any active row `s`,
`get_active_session` returns exactly `s.id`. -/
theorem C10_single_active_session (db : DB) (hr : Reachable db) :
    ((db.sessions.filter (fun s => s.active)).length ≤ 1) ∧
    (∀ s ∈ db.sessions, s.active = true → get_active_session db = some s.id) := by
  induction hr with
  | init => exact ⟨by simp [DB.init], by simp [DB.init]⟩
  | send a _ _ =>
    constructor
    · simp [create_new_session, List.filter_append, filter_deactivated]
    · intro s hs hact
      simp only [create_new_session] at hs ⊢
      rw [List.mem_append] at hs
      rcases hs with h1 | h1
      · obtain ⟨t, _, rfl⟩ := List.mem_map.mp h1
        simp at hact
      · simp only [List.mem_singleton] at h1
        subst h1
        simp [get_active_session, List.filter_append, filter_deactivated]
  | link sid tid u l h _ ih => exact ih
  | engage sid tid u _ ih =>
    constructor
    · rw [save_engagement_sessions]
      exact ih.1
    · intro s hs hact
      rw [save_engagement_sessions] at hs
      have := ih.2 s hs hact
      simpa [get_active_session, save_engagement_sessions] using this

/-- Witness for C10 at a concrete reachable state: after opening a session on
the fresh database, at most one row is active and the lookup returns it. -/
theorem C10_single_active_session_witness :
    (((create_new_session DB.init 99).1.sessions.filter
        (fun s => s.active)).length ≤ 1) ∧
    (∀ s ∈ (create_new_session DB.init 99).1.sessions, s.active = true →
      get_active_session (create_new_session DB.init 99).1 = some s.id) :=
  C10_single_active_session _ (Reachable.send 99 Reachable.init)

/-- Claim C2 counterexample: the code's `is_admin` check is independent of any
gateway membership status. With `ADMIN_IDS = {5}`, user 5 is authorized even
though the gateway reports a plain `member` status for every chat, while the
behaviour the spec describes (`isAdministrator_specVersion`) would reject
that user; so the admin check is not "true iff the gateway status is owner or
administrator". -/
theorem C2_counterexample :
    is_admin [5] 5 = true ∧
    isAdministrator_specVersion (fun _ _ => Except.ok MemberStatus.member) 0 5 = false ∧
    isAdministrator_specVersion (fun _ _ => Except.error ()) 0 5 = false :=
  ⟨rfl, rfl, rfl⟩

/-- Claim C2 (corrected): `is_admin` performs no gateway lookup at all — it is
a pure membership test of the user id against the statically configured
`ADMIN_IDS` set; it returns true iff the id is configured, and an empty
(e.g. unparseable) configuration authorizes no one. -/
theorem C2_admin_is_static_set (adminIds : List Nat) (uid : Nat) :
    (is_admin adminIds uid = true ↔ uid ∈ adminIds) ∧ is_admin [] uid = false := by
  constructor
  · simp [is_admin]
  · rfl

/-- Claim C6 counterexample: with no active session, both a link submission
and a confirmation keyword are dropped with no reply of any kind (the code
does `return` silently) — no idle-notice reply is produced. State is
unchanged. -/
theorem C6_counterexample :
    handle_text_message dbClosed ⟨"group", 7, some "bob", "Bob", "x.com/bob/status/1"⟩ =
      (dbClosed, []) ∧
    handle_text_message dbClosed ⟨"group", 7, some "bob", "Bob", "AD"⟩ =
      (dbClosed, []) :=
  ⟨rfl, rfl⟩

/-- Claim C6 (corrected): while no session is active, every text message —
in particular link submissions and engagement confirmations — is ignored
silently: the database is unchanged and no reply (idle notice or otherwise)
is sent. -/
theorem C6_closed_session_silent (db : DB) (m : Msg)
    (h : get_active_session db = none) :
    handle_text_message db m = (db, []) := by
  unfold handle_text_message
  rw [h]
  split <;> rfl

/-- Witness for C6 at a concrete closed state. -/
theorem C6_closed_session_silent_witness :
    handle_text_message dbClosed ⟨"group", 8, none, "Ann", "twitter.com/ann/status/5"⟩ =
      (dbClosed, []) :=
  C6_closed_session_silent dbClosed _ rfl

/-- Unfolding lemma for the extraction scan at an `x.com/` occurrence whose
following word-character run is nonempty. -/
theorem extractAux_xcom_word (tail : List Char)
    (h : ((tail.takeWhile isWordChar).isEmpty) = false) :
    extractAux ('x' :: '.' :: 'c' :: 'o' :: 'm' :: '/' :: tail) =
      some (String.mk (tail.takeWhile isWordChar)) := by
  have hpre : ("x.com/".data).isPrefixOf
      ('x' :: '.' :: 'c' :: 'o' :: 'm' :: '/' :: tail) = true := by
    show List.isPrefixOf ['x', '.', 'c', 'o', 'm', '/'] _ = true
    simp [List.isPrefixOf]
  simp only [extractAux, handleAfter, hpre, if_true]
  have hdrop : (('x' :: '.' :: 'c' :: 'o' :: 'm' :: '/' :: tail).drop
      ("x.com/".data.length)) = tail := rfl
  rw [hdrop, h]
  simp

/-- Claim C3 counterexample: a bare profile link with no `/status/<id>`
segment does yield a handle — the extraction pattern only requires
`x.com/<word-chars>` or `twitter.com/<word-chars>`, refuting "a bare profile
link yields no handle". -/
theorem C3_counterexample :
    extract_x_handle "x.com/alice" = some "alice" ∧
    extract_x_handle "https://twitter.com/bob" = some "bob" :=
  ⟨rfl, rfl⟩

/-- Claim C3 (corrected): for any nonempty handle `u` made of word characters
(letters, digits, underscore), extraction returns `u` both for the bare
profile link `x.com/u` and for the status link `x.com/u/status/123`: the
pattern requires no `.../status/<id>` path — it captures the first
word-character run after the domain. -/
theorem C3_bare_profile_yields_handle (u : String)
    (hne : u.data ≠ []) (hw : ∀ c ∈ u.data, isWordChar c = true) :
    extract_x_handle ("x.com/" ++ u) = some u ∧
    extract_x_handle ("x.com/" ++ u ++ "/status/123") = some u := by
  have hE : u.data.isEmpty = false := by
    cases hu2 : u.data with
    | nil => exact absurd hu2 hne
    | cons a as => rfl
  have h1 : ("x.com/" ++ u).data =
      'x' :: '.' :: 'c' :: 'o' :: 'm' :: '/' :: u.data := rfl
  have h2 : ("x.com/" ++ u ++ "/status/123").data =
      'x' :: '.' :: 'c' :: 'o' :: 'm' :: '/' :: (u.data ++ '/' :: "status/123".data) := rfl
  constructor
  · rw [extract_x_handle, h1, extractAux_xcom_word]
    · rw [takeWhile_of_all hw]
    · rw [takeWhile_of_all hw]
      exact hE
  · rw [extract_x_handle, h2, extractAux_xcom_word]
    · rw [takeWhile_append_of_stop hw (by decide)]
    · rw [takeWhile_append_of_stop hw (by decide)]
      exact hE

/-- Witness for C3 at the concrete handle `alice`. -/
theorem C3_bare_profile_yields_handle_witness :
    extract_x_handle ("x.com/" ++ "alice") = some "alice" ∧
    extract_x_handle ("x.com/" ++ "alice" ++ "/status/123") = some "alice" :=
  C3_bare_profile_yields_handle "alice" (by decide) (by decide)

/-- Claim C1 counterexample: user 7 already has 2 accepted links in the open
session of `dbTwo`; a third submission is answered with an explanatory reply
("❌ You\x27ve already submitted 2 links. Maximum reached.") — the message is
not deleted and a reply IS sent, refuting "rejected by deleting the message
silently (no reply is sent)". The state is unchanged and the count stays 2. -/
theorem C1_counterexample :
    handle_text_message dbTwo msgLinkC =
      (dbTwo, [BotAction.reply "❌ You\x27ve already submitted 2 links. Maximum reached."]) ∧
    get_user_link_count dbTwo 1 7 = 2 := by
  exact ⟨by decide, by decide⟩

/-- Claim C1 (corrected): once a participant has `MAX_LINKS_PER_PARTICIPANT`
(= 2) accepted links in the open session, a further qualifying link
submission is rejected with no state change (the count stays as it was), but
the enforcement is an explanatory reply to the sender — not a silent
deletion of the message. -/
theorem C1_cap_rejects_with_reply (db : DB) (m : Msg) (sid : Nat)
    (hg : (m.chat_type == "group" || m.chat_type == "supergroup") = true)
    (hs : get_active_session db = some sid)
    (hk : engKeywords.contains (pyLower (pyStrip m.text)) = false)
    (hq : x_link_qualifies (pyStrip m.text) = true)
    (hc : get_user_link_count db sid m.user_id ≥ 2) :
    handle_text_message db m =
      (db, [BotAction.reply "❌ You\x27ve already submitted 2 links. Maximum reached."]) := by
  unfold handle_text_message
  rw [hg, hs]
  simp only [Bool.not_true, Bool.false_eq_true, if_false, hk, hq, if_true]
  rw [if_pos hc]

/-- Witness for C1 at the concrete state `dbTwo` and third submission. -/
theorem C1_cap_rejects_with_reply_witness :
    handle_text_message dbTwo msgLinkC =
      (dbTwo, [BotAction.reply "❌ You\x27ve already submitted 2 links. Maximum reached."]) :=
  C1_cap_rejects_with_reply dbTwo msgLinkC 1 (by decide) (by decide) (by decide)
    (by decide) (by decide)

/-- Claim C5 counterexample: the message `x.com/@weird` is recognized as a
qualifying link but its handle is not extractable; the code nevertheless
saves the link with a `NULL` handle, increments the count to 1 and replies
with the ordinary success message — no corrective reply, and the state does
change, refuting the claim. -/
theorem C5_counterexample :
    extract_x_handle "x.com/@weird" = none ∧
    x_link_qualifies "x.com/@weird" = true ∧
    (handle_text_message dbEmptyOpen ⟨"group", 7, some "bob", "Bob", "x.com/@weird"⟩).2 =
      [BotAction.reply "✅ Link saved! You can submit 1 more link(s)."] ∧
    get_user_link_count
      (handle_text_message dbEmptyOpen ⟨"group", 7, some "bob", "Bob", "x.com/@weird"⟩).1
      1 7 = 1 :=
  ⟨rfl, rfl, rfl, rfl⟩

/-- Claim C5 (corrected): when an open-session message qualifies as a link
but handle extraction fails, the submission is still accepted: the link is
recorded with an empty handle, the participant's count increases (0 → 1
here), and the sender receives the ordinary success reply — no corrective
guidance is sent and the state is not left unchanged. -/
theorem C5_extraction_failure_still_saves (db : DB) (m : Msg) (sid : Nat)
    (hg : (m.chat_type == "group" || m.chat_type == "supergroup") = true)
    (hs : get_active_session db = some sid)
    (hk : engKeywords.contains (pyLower (pyStrip m.text)) = false)
    (hq : x_link_qualifies (pyStrip m.text) = true)
    (hx : extract_x_handle (pyStrip m.text) = none)
    (hc : get_user_link_count db sid m.user_id = 0) :
    handle_text_message db m =
      (save_link db sid m.user_id (strOr m.username m.first_name) (pyStrip m.text) none,
       [BotAction.reply "✅ Link saved! You can submit 1 more link(s)."]) ∧
    get_user_link_count (handle_text_message db m).1 sid m.user_id = 1 := by
  have hmain : handle_text_message db m =
      (save_link db sid m.user_id (strOr m.username m.first_name) (pyStrip m.text) none,
       [BotAction.reply "✅ Link saved! You can submit 1 more link(s)."]) := by
    unfold handle_text_message
    rw [hg, hs]
    simp only [Bool.not_true, Bool.false_eq_true, if_false, hk, hq, if_true, hx, hc]
    norm_num
    rfl
  refine ⟨hmain, ?_⟩
  rw [hmain]
  rw [get_user_link_count_save, hc]

/-- Witness for C5 at the concrete unparseable link `x.com/@weird`. -/
theorem C5_extraction_failure_still_saves_witness :
    handle_text_message dbEmptyOpen ⟨"group", 7, some "bob", "Bob", "x.com/@weird"⟩ =
      (save_link dbEmptyOpen 1 7 (strOr (some "bob") "Bob") (pyStrip "x.com/@weird") none,
       [BotAction.reply "✅ Link saved! You can submit 1 more link(s)."]) ∧
    get_user_link_count
      (handle_text_message dbEmptyOpen ⟨"group", 7, some "bob", "Bob", "x.com/@weird"⟩).1
      1 7 = 1 :=
  C5_extraction_failure_still_saves dbEmptyOpen _ 1 (by decide) (by decide) (by decide)
    (by decide) (by decide) (by decide)

/-- Claim C4 counterexample: in `dbTwo` user 7 has two accepted submissions
with different extractable handles (`aaa` first, `bbb` second); the
handle-list query returns BOTH — `["@aaa", "@bbb"]`, not only the first —
refuting "the handle-list query returns only that first handle for the
participant". There is no per-participant canonical-handle record at all:
every link row keeps its own handle. -/
theorem C4_counterexample :
    get_session_handles dbTwo 1 = ["@aaa", "@bbb"] := by decide

/-- Claim C4 (corrected): each accepted submission stores its own extracted
handle with its link row; the handle-list query returns every distinct
non-empty handle of the session, so a participant who submits two links with
different handles contributes both — later handles are added alongside the
first, not discarded. -/
theorem C4_later_handles_also_listed (db : DB) (sid tid : Nat)
    (u l1 l2 h1 h2 : String) (h1ne : h1 ≠ "") (h2ne : h2 ≠ "") :
    ("@" ++ h1) ∈ get_session_handles
        (save_link (save_link db sid tid u l1 (some h1)) sid tid u l2 (some h2)) sid ∧
    ("@" ++ h2) ∈ get_session_handles
        (save_link (save_link db sid tid u l1 (some h1)) sid tid u l2 (some h2)) sid := by
  constructor
  · apply handle_mem_of_row _ sid ⟨sid, tid, if u = "" then "Unknown" else u, l1, some h1⟩
      _ rfl h1 rfl h1ne
    simp [save_link]
  · apply handle_mem_of_row _ sid ⟨sid, tid, if u = "" then "Unknown" else u, l2, some h2⟩
      _ rfl h2 rfl h2ne
    simp [save_link]

/-- Witness for C4: both `@aaa` and `@bbb` are listed after user 7 submits
links with handles `aaa` then `bbb` into session 1 of `dbEmptyOpen`. -/
theorem C4_later_handles_also_listed_witness :
    ("@" ++ "aaa") ∈ get_session_handles
        (save_link (save_link dbEmptyOpen 1 7 "bob" "x.com/aaa/status/1" (some "aaa"))
          1 7 "bob" "x.com/bbb/status/2" (some "bbb")) 1 ∧
    ("@" ++ "bbb") ∈ get_session_handles
        (save_link (save_link dbEmptyOpen 1 7 "bob" "x.com/aaa/status/1" (some "aaa"))
          1 7 "bob" "x.com/bbb/status/2" (some "bbb")) 1 :=
  C4_later_handles_also_listed dbEmptyOpen 1 7 "bob" "x.com/aaa/status/1"
    "x.com/bbb/status/2" "aaa" "bbb" (by decide) (by decide)

/-- Claim C8 counterexample: `cmd_send` on a database whose prior round
recorded 3 links replies with the fixed announcement — identical to the
reply on the fresh empty database — so the discarded-link count (3 here) is
not reported anywhere, refuting "reports exactly N as the discarded-link
count". -/
theorem C8_counterexample :
    (cmd_send dbThreePrior exAdmins 99).2 = [BotAction.reply "START SENDING LINK 🔗"] ∧
    (cmd_send DB.init exAdmins 99).2 = (cmd_send dbThreePrior exAdmins 99).2 :=
  ⟨rfl, rfl⟩

/-- Claim C8 (corrected): opening a new session replies only with the fixed
announcement (no discarded count is computed or reported); the new session
becomes the active one and every query against it — participants, handles,
completed, not-completed — is empty (the prior round's rows stay in the
tables under old session ids, merely unreferenced). The freshness hypotheses
say no stored row already carries the about-to-be-allocated session id,
which AUTOINCREMENT guarantees in the real database. -/
theorem C8_reset_queries_empty (db : DB) (adminIds : List Nat) (uid : Nat)
    (hadm : is_admin adminIds uid = true)
    (hl : ∀ r ∈ db.links, r.session_id ≠ db.nextSessionId)
    (he : ∀ r ∈ db.engagement, r.session_id ≠ db.nextSessionId) :
    (cmd_send db adminIds uid).2 = [BotAction.reply "START SENDING LINK 🔗"] ∧
    get_active_session (cmd_send db adminIds uid).1 = some db.nextSessionId ∧
    get_session_participants (cmd_send db adminIds uid).1 db.nextSessionId = [] ∧
    get_session_handles (cmd_send db adminIds uid).1 db.nextSessionId = [] ∧
    get_engagement_list (cmd_send db adminIds uid).1 db.nextSessionId = [] ∧
    cmd_notad_roster (cmd_send db adminIds uid).1 db.nextSessionId = [] := by
  have hdb : (cmd_send db adminIds uid).1 = (create_new_session db uid).1 := by
    simp [cmd_send, hadm]
  have hlinksNil : ((create_new_session db uid).1.links.filter
      (fun r => r.session_id == db.nextSessionId)) = [] := by
    apply List.filter_eq_nil_iff.mpr
    intro r hr
    simp only [create_new_session] at hr
    simpa using hl r hr
  have hengNil : ((create_new_session db uid).1.engagement.filter
      (fun r => r.session_id == db.nextSessionId)) = [] := by
    apply List.filter_eq_nil_iff.mpr
    intro r hr
    simp only [create_new_session] at hr
    simpa using he r hr
  refine ⟨by simp [cmd_send, hadm], ?_, ?_, ?_, ?_, ?_⟩
  · rw [hdb]
    simp [get_active_session, create_new_session, List.filter_append, filter_deactivated]
  · rw [hdb]
    unfold get_session_participants
    rw [hlinksNil]
    rfl
  · rw [hdb]
    unfold get_session_handles
    rw [hlinksNil]
    rfl
  · rw [hdb]
    unfold get_engagement_list
    rw [hengNil]
    rfl
  · rw [hdb]
    unfold cmd_notad_roster get_session_participants
    rw [hlinksNil]
    rfl

/-- Witness for C8 at the concrete prior round `dbThreePrior` (3 links). -/
theorem C8_reset_queries_empty_witness :
    (cmd_send dbThreePrior exAdmins 99).2 =
      [BotAction.reply "START SENDING LINK 🔗"] ∧
    get_active_session (cmd_send dbThreePrior exAdmins 99).1 =
      some dbThreePrior.nextSessionId ∧
    get_session_participants (cmd_send dbThreePrior exAdmins 99).1
      dbThreePrior.nextSessionId = [] ∧
    get_session_handles (cmd_send dbThreePrior exAdmins 99).1
      dbThreePrior.nextSessionId = [] ∧
    get_engagement_list (cmd_send dbThreePrior exAdmins 99).1
      dbThreePrior.nextSessionId = [] ∧
    cmd_notad_roster (cmd_send dbThreePrior exAdmins 99).1
      dbThreePrior.nextSessionId = [] :=
  C8_reset_queries_empty dbThreePrior exAdmins 99 (by decide) (by decide) (by decide)
